import Mathlib

/-!
Verification development for the skill-compose repository.

Shallow embedding of the core coordination components:
 - `app/agent/event_stream.py` (EventStream: push / close / inject / async iteration)
 - `app/agent/steering.py` (filesystem steering queue)
 - `app/services/channel_manager.py` (adapter identity, inbound routing)
 - `app/services/scheduler.py` and `app/api/v1/scheduler.py` (task scheduler)

Machine integers do not occur on the verified paths; timestamps are modelled
as natural numbers (seconds / nanoseconds since the epoch).
-/

/-- Modelled from the spec: the Event record `{kind, run-turn-number, payload}`
(class `StreamEvent` of `app/agent/agent.py`, which is not under `src/`).
Field names follow the constructor calls visible in `src`
(`StreamEvent(event_type=..., turn=..., data=...)`); the payload dict is
modelled as an association list. -/
structure StreamEvent where
  event_type : String
  turn : Nat
  data : List (String × String)
deriving Repr, DecidableEq

/-- State of `EventStream` (event_stream.py lines 27-31): the event FIFO
queue (`asyncio.Queue[Optional[StreamEvent]]`, so entries are `Option`s and
`none` is the close sentinel), the steering injection FIFO queue, and the
closed flag. -/
structure EventStream where
  queue : List (Option StreamEvent)
  injection_queue : List String
  closed : Bool
deriving Repr, DecidableEq

/-- `EventStream.__init__`: empty queues, not closed. -/
def EventStream.init : EventStream :=
  { queue := [], injection_queue := [], closed := false }

/-- `EventStream.push` (lines 33-36): enqueue the event; no-op if closed. -/
def EventStream.push (s : EventStream) (e : StreamEvent) : EventStream :=
  if s.closed then s else { s with queue := s.queue ++ [some e] }

/-- `EventStream.close` (lines 38-42): if not yet closed, set the flag and
enqueue the `None` sentinel; idempotent. -/
def EventStream.close (s : EventStream) : EventStream :=
  if s.closed then s
  else { s with closed := true, queue := s.queue ++ [none] }

/-- `EventStream.inject` (lines 50-52): always enqueue onto the injection
queue, closed or not. -/
def EventStream.inject (s : EventStream) (m : String) : EventStream :=
  { s with injection_queue := s.injection_queue ++ [m] }

/-- A producer-side call on one `EventStream`. -/
inductive StreamOp where
  | push (e : StreamEvent)
  | inject (m : String)
  | close
deriving Repr, DecidableEq

/-- Apply one producer call to the stream state. -/
def EventStream.applyOp (s : EventStream) : StreamOp → EventStream
  | .push e => s.push e
  | .inject m => s.inject m
  | .close => s.close

/-- Run a finite sequence of producer calls from a given state. -/
def EventStream.runFrom (s : EventStream) (ops : List StreamOp) : EventStream :=
  ops.foldl EventStream.applyOp s

/-- Run a finite sequence of producer calls on a fresh stream. -/
def EventStream.run (ops : List StreamOp) : EventStream :=
  EventStream.runFrom EventStream.init ops

/-- The consumer's drain of the event queue (`__aiter__`, lines 72-80, in the
regime where the queue is non-empty until the sentinel so `asyncio.wait_for`
never times out): yield each queued event in FIFO order and stop at the
first `None` sentinel.  Idle-timeout heartbeats are modelled separately by
`iterTicks`. -/
def consume : List (Option StreamEvent) → List StreamEvent
  | [] => []
  | none :: _ => []
  | some e :: rest => e :: consume rest

/-- Spec-side reference function for claim C1: the events passed to `push`
strictly before the first `close` call, in call order. -/
def pushedBeforeClose : List StreamOp → List StreamEvent
  | [] => []
  | .push e :: rest => e :: pushedBeforeClose rest
  | .inject _ :: rest => pushedBeforeClose rest
  | .close :: _ => []

/-- The synthetic keepalive event built on timeout (`__aiter__` lines 83-87:
`StreamEvent(event_type="heartbeat", turn=0, data={})`). -/
def heartbeatEvent : StreamEvent :=
  { event_type := "heartbeat", turn := 0, data := [] }

/-- One iteration of the consumer loop in `__aiter__` (lines 72-87), seen
through the outcome of `asyncio.wait_for(self._queue.get(), timeout)`:
either an item arrives within the heartbeat interval, or the wait times
out after exactly one heartbeat interval. -/
inductive IterTick where
  | item (e : Option StreamEvent)
  | timeout
deriving Repr, DecidableEq

/-- The consumer of `__aiter__` over a sequence of wait outcomes: a real
event is yielded, the `None` sentinel ends the iteration, and a timeout
yields one synthetic heartbeat event and loops. -/
def iterTicks : List IterTick → List StreamEvent
  | [] => []
  | .item none :: _ => []
  | .item (some e) :: rest => e :: iterTicks rest
  | .timeout :: rest => heartbeatEvent :: iterTicks rest

-- ---------------------------------------------------------------------------
-- EventStream lemmas
-- ---------------------------------------------------------------------------

theorem runFrom_closed (ops : List StreamOp) :
    ∀ s : EventStream, s.closed = true →
      (EventStream.runFrom s ops).queue = s.queue ∧
      (EventStream.runFrom s ops).closed = true := by
  induction ops with
  | nil => intro s h; exact ⟨rfl, h⟩
  | cons op rest ih =>
    intro s h
    cases op with
    | push e =>
      have : s.push e = s := by simp [EventStream.push, h]
      simpa [EventStream.runFrom, EventStream.applyOp, this] using ih s h
    | inject m =>
      have hq := ih (s.inject m) (by simp [EventStream.inject, h])
      simpa [EventStream.runFrom, EventStream.applyOp, EventStream.inject] using hq
    | close =>
      have : s.close = s := by simp [EventStream.close, h]
      simpa [EventStream.runFrom, EventStream.applyOp, this] using ih s h

theorem runFrom_open_with_close (ops : List StreamOp) :
    ∀ s : EventStream, s.closed = false → StreamOp.close ∈ ops →
      (EventStream.runFrom s ops).queue =
        s.queue ++ (pushedBeforeClose ops).map some ++ [none] := by
  induction ops with
  | nil => intro s _ hmem; cases hmem
  | cons op rest ih =>
    intro s hs hmem
    cases op with
    | push e =>
      have hmem' : StreamOp.close ∈ rest := by
        cases hmem with
        | tail _ h => exact h
      have hpush : s.push e = { s with queue := s.queue ++ [some e] } := by
        simp [EventStream.push, hs]
      have ihq := ih { s with queue := s.queue ++ [some e] } (by simp [hs]) hmem'
      simp only [EventStream.runFrom, List.foldl_cons, EventStream.applyOp, hpush] at *
      simp [ihq, pushedBeforeClose, List.append_assoc]
    | inject m =>
      have hmem' : StreamOp.close ∈ rest := by
        cases hmem with
        | tail _ h => exact h
      have ihq := ih (s.inject m) (by simp [EventStream.inject, hs]) hmem'
      simp only [EventStream.runFrom, List.foldl_cons, EventStream.applyOp] at *
      simpa [EventStream.inject, pushedBeforeClose] using ihq
    | close =>
      have hclose : s.close = { s with closed := true, queue := s.queue ++ [none] } := by
        simp [EventStream.close, hs]
      have hq := runFrom_closed rest { s with closed := true, queue := s.queue ++ [none] } rfl
      simp only [EventStream.runFrom, List.foldl_cons, EventStream.applyOp, hclose] at *
      simp [hq.1, pushedBeforeClose]

theorem consume_map_some_append (l : List StreamEvent) (t : List (Option StreamEvent)) :
    consume (l.map some ++ none :: t) = l := by
  induction l with
  | nil => simp [consume]
  | cons e rest ih => simp [consume, ih]

/-- C1: for every finite sequence of `push`/`inject`/`close` calls on a single
EventStream that contains at least one `close`, the event queue ends up
holding exactly the events pushed before the first close (in push order)
followed by the close sentinel, and the consumer drain yields exactly those
events in order and then terminates at the sentinel; events pushed after
close are dropped and never yielded. -/
theorem eventStream_consume_pushedBeforeClose (ops : List StreamOp)
    (h : StreamOp.close ∈ ops) :
    (EventStream.run ops).queue = (pushedBeforeClose ops).map some ++ [none] ∧
    consume (EventStream.run ops).queue = pushedBeforeClose ops := by
  have hq := runFrom_open_with_close ops EventStream.init rfl h
  have hq' : (EventStream.run ops).queue =
      (pushedBeforeClose ops).map some ++ [none] := by
    simpa [EventStream.run, EventStream.init] using hq
  refine ⟨hq', ?_⟩
  rw [hq']
  simpa using consume_map_some_append (pushedBeforeClose ops) []

/-- Witness for C1 at a concrete call sequence: two events pushed before
close, one injection, and one push after close which is dropped. -/
theorem eventStream_consume_pushedBeforeClose_witness :
    StreamOp.close ∈
      [StreamOp.push { event_type := "turn_start", turn := 1, data := [] },
       StreamOp.inject "steer me",
       StreamOp.push { event_type := "assistant_text", turn := 1, data := [] },
       StreamOp.close,
       StreamOp.push { event_type := "late", turn := 2, data := [] }] ∧
    consume (EventStream.run
      [StreamOp.push { event_type := "turn_start", turn := 1, data := [] },
       StreamOp.inject "steer me",
       StreamOp.push { event_type := "assistant_text", turn := 1, data := [] },
       StreamOp.close,
       StreamOp.push { event_type := "late", turn := 2, data := [] }]).queue =
      [{ event_type := "turn_start", turn := 1, data := [] },
       { event_type := "assistant_text", turn := 1, data := [] }] := by
  refine ⟨by decide, ?_⟩
  have h := eventStream_consume_pushedBeforeClose
    [StreamOp.push { event_type := "turn_start", turn := 1, data := [] },
     StreamOp.inject "steer me",
     StreamOp.push { event_type := "assistant_text", turn := 1, data := [] },
     StreamOp.close,
     StreamOp.push { event_type := "late", turn := 2, data := [] }] (by decide)
  rw [h.2]
  decide

/-- C9: while the stream is not closed, the consumer's wait is bounded by the
heartbeat interval: an idle period of `k` elapsed heartbeat intervals with no
push (that is, `k` consecutive `asyncio.wait_for` timeouts) yields exactly one
synthetic heartbeat event per elapsed interval, one per timeout, so the
consumer produces output instead of blocking indefinitely. -/
theorem eventStream_heartbeat_per_idle_interval (k : Nat) (rest : List IterTick) :
    iterTicks (List.replicate k IterTick.timeout ++ rest) =
      List.replicate k heartbeatEvent ++ iterTicks rest ∧
    (iterTicks (List.replicate k IterTick.timeout)).length = k := by
  constructor
  · induction k with
    | zero => simp
    | succ n ih => simp [List.replicate_succ, iterTicks, ih]
  · induction k with
    | zero => simp [iterTicks]
    | succ n ih => simp [List.replicate_succ, iterTicks, ih]

-- ---------------------------------------------------------------------------
-- Steering transport (app/agent/steering.py)
-- ---------------------------------------------------------------------------

/-- One file in a run's steering directory `/tmp/agent_steering/{trace_id}/`.
`name` is the numeric `time_ns`-prefixed part of the filename (the filename
is `f"{time_ns}_{pid}_{random}"`, which sorts by the timestamp prefix);
`published` is `true` for a `.msg` file and `false` for an in-flight `.tmp`
file, whose `content` may still be a partial write. -/
structure FsFile where
  name : Nat
  content : String
  published : Bool
deriving Repr, DecidableEq

/-- `write_steering_message` (steering.py lines 34-43): write the whole
message under a fresh unique `.tmp` name, then atomically rename it to
`.msg`.  This is the state after the atomic rename (the publish point). -/
def write_steering_message (dir : List FsFile) (name : Nat) (message : String) :
    List FsFile :=
  dir ++ [{ name := name, content := message, published := true }]

/-- The in-flight state of `write_steering_message` between `write_text` and
`rename`: the file exists under the `.tmp` name and may hold any partial
content. -/
def write_steering_tmp (dir : List FsFile) (name : Nat) (partialContent : String) :
    List FsFile :=
  dir ++ [{ name := name, content := partialContent, published := false }]

/-- Insertion of a file into a name-sorted list (helper for modelling
Python's `sorted`). -/
def insertByName (f : FsFile) : List FsFile → List FsFile
  | [] => [f]
  | g :: t => if f.name ≤ g.name then f :: g :: t else g :: insertByName f t

/-- Stable sort by filename, modelling `sorted(trace_dir.glob("*.msg"))`. -/
def sortByName : List FsFile → List FsFile
  | [] => []
  | f :: t => insertByName f (sortByName t)

/-- `sorted(trace_dir.glob("*.msg"))` (steering.py line 67): only the
published `.msg` files, in filename order; `.tmp` files are never listed. -/
def listMsgFiles (dir : List FsFile) : List FsFile :=
  sortByName (dir.filter (fun f => f.published))

/-- One tick of `poll_steering_messages` (steering.py lines 66-73): for each
listed `.msg` file in filename order, read it, inject its content into the
event stream, and delete it.  Returns the directory and stream after the
tick. -/
def poll_steering_tick (dir : List FsFile) (es : EventStream) :
    List FsFile × EventStream :=
  let msgs := listMsgFiles dir
  (dir.filter (fun f => !f.published),
   msgs.foldl (fun s f => s.inject f.content) es)

-- ---------------------------------------------------------------------------
-- Steering lemmas
-- ---------------------------------------------------------------------------

theorem foldl_write_steering (writes : List (Nat × String)) :
    ∀ d : List FsFile,
      writes.foldl (fun acc nm => write_steering_message acc nm.1 nm.2) d =
        d ++ writes.map (fun nm => { name := nm.1, content := nm.2, published := true }) := by
  induction writes with
  | nil => intro d; simp
  | cons w rest ih =>
    intro d
    rw [List.foldl_cons, ih]
    simp [write_steering_message, List.append_assoc]

theorem insertByName_le_head (f : FsFile) (t : List FsFile)
    (h : ∀ g ∈ t, f.name ≤ g.name) : insertByName f t = f :: t := by
  cases t with
  | nil => rfl
  | cons g t' => simp [insertByName, h g (by simp)]

theorem sortByName_sorted_id (l : List FsFile)
    (h : l.Pairwise (fun a b => a.name ≤ b.name)) : sortByName l = l := by
  induction l with
  | nil => rfl
  | cons f t ih =>
    rw [List.pairwise_cons] at h
    simp only [sortByName, ih h.2]
    exact insertByName_le_head f t h.1

theorem mem_insertByName (x f : FsFile) (l : List FsFile) :
    x ∈ insertByName f l ↔ x = f ∨ x ∈ l := by
  induction l with
  | nil => simp [insertByName]
  | cons g t ih =>
    by_cases h : f.name ≤ g.name
    · simp [insertByName, h]
    · simp [insertByName, h, ih]
      tauto

theorem mem_sortByName (x : FsFile) (l : List FsFile) :
    x ∈ sortByName l ↔ x ∈ l := by
  induction l with
  | nil => simp [sortByName]
  | cons f t ih => simp [sortByName, mem_insertByName, ih]

theorem listMsgFiles_published (d : List FsFile) (f : FsFile)
    (h : f ∈ listMsgFiles d) : f.published = true := by
  rw [listMsgFiles, mem_sortByName, List.mem_filter] at h
  exact h.2

theorem foldl_inject_injection_queue (msgs : List FsFile) :
    ∀ es : EventStream,
      (msgs.foldl (fun s f => s.inject f.content) es).injection_queue =
        es.injection_queue ++ msgs.map (fun f => f.content) := by
  induction msgs with
  | nil => intro es; simp
  | cons f rest ih =>
    intro es
    rw [List.foldl_cons, ih]
    simp [EventStream.inject, List.append_assoc]

/-- C2: writing `N` steering messages for one run at strictly increasing
timestamps and then draining injects exactly the `N` message bodies into the
EventStream in filename (write-timestamp) order, exactly once each, and
deletes every file after injection (a second tick injects nothing); the
poller lists only fully published `.msg` files, never in-flight `.tmp`
files, so a partially written message is never observed. -/
theorem steering_drain_in_write_order (writes : List (Nat × String))
    (es : EventStream)
    (hinc : writes.Pairwise (fun a b => a.1 < b.1)) :
    listMsgFiles
        (writes.foldl (fun acc nm => write_steering_message acc nm.1 nm.2) []) =
      writes.map (fun nm => { name := nm.1, content := nm.2, published := true }) ∧
    (poll_steering_tick
        (writes.foldl (fun acc nm => write_steering_message acc nm.1 nm.2) [])
        es).2.injection_queue =
      es.injection_queue ++ writes.map (fun nm => nm.2) ∧
    (poll_steering_tick
        (writes.foldl (fun acc nm => write_steering_message acc nm.1 nm.2) [])
        es).1 = [] ∧
    (∀ d : List FsFile, ∀ f ∈ listMsgFiles d, f.published = true) ∧
    (∀ (d : List FsFile) (n : Nat) (partialContent : String),
      listMsgFiles (write_steering_tmp d n partialContent) = listMsgFiles d) := by
  have hdir := foldl_write_steering writes []
  have hall : (writes.map
      (fun nm => ({ name := nm.1, content := nm.2, published := true } : FsFile))).Pairwise
      (fun a b => a.name ≤ b.name) := by
    rw [List.pairwise_map]
    exact hinc.imp (fun h => Nat.le_of_lt h)
  have hfilter : (writes.map
      (fun nm => ({ name := nm.1, content := nm.2, published := true } : FsFile))).filter
      (fun f => f.published) =
      writes.map (fun nm => { name := nm.1, content := nm.2, published := true }) := by
    apply List.filter_eq_self.mpr
    intro f hf
    rw [List.mem_map] at hf
    obtain ⟨nm, _, rfl⟩ := hf
    rfl
  have hlist : listMsgFiles
      (writes.foldl (fun acc nm => write_steering_message acc nm.1 nm.2) []) =
      writes.map (fun nm => { name := nm.1, content := nm.2, published := true }) := by
    rw [hdir]
    simp only [List.nil_append, listMsgFiles, hfilter]
    exact sortByName_sorted_id _ hall
  refine ⟨hlist, ?_, ?_, ?_, ?_⟩
  · rw [poll_steering_tick]
    simp only [hlist, foldl_inject_injection_queue]
    simp [Function.comp]
  · rw [poll_steering_tick]
    simp only [hdir, List.nil_append]
    apply List.filter_eq_nil_iff.mpr
    intro f hf
    rw [List.mem_map] at hf
    obtain ⟨nm, _, rfl⟩ := hf
    simp
  · exact listMsgFiles_published
  · intro d n partialContent
    rw [listMsgFiles, listMsgFiles, write_steering_tmp]
    congr 1
    rw [List.filter_append]
    simp

/-- Witness for C2 at two concrete writes with increasing timestamps. -/
theorem steering_drain_in_write_order_witness :
    ([(100, "steer-1"), (200, "steer-2")] : List (Nat × String)).Pairwise
      (fun a b => a.1 < b.1) ∧
    (poll_steering_tick
        (([(100, "steer-1"), (200, "steer-2")] : List (Nat × String)).foldl
          (fun acc nm => write_steering_message acc nm.1 nm.2) [])
        EventStream.init).2.injection_queue = ["steer-1", "steer-2"] := by
  refine ⟨by decide, ?_⟩
  have h := steering_drain_in_write_order
    [(100, "steer-1"), (200, "steer-2")] EventStream.init (by decide)
  rw [h.2.1]
  decide

-- ---------------------------------------------------------------------------
-- Channel manager (app/services/channel_manager.py)
-- ---------------------------------------------------------------------------

/-- A row of `channel_bindings` as read by the channel manager: the fields of
`ChannelBindingDB` used on the routing and adapter-lifecycle paths.  The
`config` JSONB blob is represented by the two keys the code reads
(`app_id`, `app_secret`); a binding with `config = None` has both `none`. -/
structure ChannelBinding where
  id : String
  channel_type : String
  external_id : String
  agent_id : String
  trigger_pattern : Option String
  enabled : Bool
  app_id : Option String
  app_secret : Option String
deriving Repr, DecidableEq

/-- Python truthiness of an optional string (`if not x` is taken when `x`
is `None` or `""`). -/
def truthyStr : Option String → Bool
  | none => false
  | some s => !(s == "")

/-- `adapter_key_for_binding` (channel_manager.py lines 33-45): Feishu
bindings are keyed `feishu:{app_id}` (`None` when the config has no truthy
`app_id`); every other channel type is keyed by its channel type string. -/
def adapter_key_for_binding (b : ChannelBinding) : Option String :=
  if b.channel_type = "feishu" then
    match b.app_id with
    | none => none
    | some a => if a = "" then none else some ("feishu:" ++ a)
  else
    some b.channel_type

/-- An inbound platform message, with exactly the fields the
`InboundMessage` dataclass of app/channels/base.py declares: it has NO
`media` field (its fields end at `metadata`/`timestamp`, neither of which
is read on the modelled paths).  channel_manager.py nevertheless reads
`msg.media` and feishu.py passes a `media=` keyword to the constructor;
both fail at run time — see `handleInbound`.  In particular feishu.py line
317 raises `TypeError` on every message it builds (caught by its own
handler at line 327), so only media-less messages such as telegram's ever
reach `_handle_inbound`, and a media-carrying message is not
constructible. -/
structure InboundMessage where
  channel_type : String
  external_id : String
  sender_id : String
  sender_name : String
  content : String
  message_type : String
  external_message_id : Option String
deriving Repr, DecidableEq

/-- The binding lookup of `_handle_inbound` (channel_manager.py lines
310-317): `SELECT ... WHERE channel_type = msg.channel_type AND external_id
= msg.external_id AND enabled`, under the DB invariant of at most one
binding per (channel_type, external_id) pair. -/
def findBinding (bindings : List ChannelBinding) (ct eid : String) :
    Option ChannelBinding :=
  bindings.find? (fun b => b.channel_type == ct && b.external_id == eid && b.enabled)

/-- A persistence or messaging side effect of `_handle_inbound`, in program
order. -/
inductive InboundEffect where
  | recordInbound (binding_id : String) (content : String)
  | createSession (session_id : String)
  | runAgent (agent_id : String)
  | recordOutbound (binding_id : String) (content : String)
  | sendReply (external_id : String) (content : String)
deriving Repr, DecidableEq

/-- The effect trace of `_handle_inbound` (channel_manager.py lines
298-424) over the `InboundMessage` that base.py actually defines.  The
whole body runs inside `try ... except Exception` (line 423), so a raised
exception drops the message and only work already committed survives.
Control flow, following the source line by line:

 * no matching enabled binding (lines 310-321): return, no effect;
 * the binding's trigger pattern is truthy (line 325,
   `if binding.trigger_pattern and not msg.media:`): Python evaluates
   `msg.media`, and since base.py's `InboundMessage` has no `media` field
   this raises `AttributeError` inside the first session block, before
   anything was added — the outer handler swallows it, the session rolls
   back, and the message is dropped with no effect.  `re.search` is never
   reached, for matching and non-matching text alike, so neither the
   no-match return (line 328) nor the fail-open `re.error` branch (lines
   329-330) can execute;
 * the trigger pattern is falsy: the `and` short-circuits past
   `msg.media`; the inbound record is added (line 344), the agent preset
   is loaded (missing preset → return at line 357, before the commit, so
   nothing is persisted), the session row is created when absent (lines
   360-374), and the commit at line 380 persists record and session;
   then line 385 (`if msg.media:`) raises the same `AttributeError`, so
   the agent never runs and no outbound record or reply is produced.

`reSearch` is the regex engine (`.error ()` models a raised `re.error`),
`hashFn` the sha256-derived session id (lines 347-348), `agentAnswer` the
agent invocation result and `adapters` the keys of connected adapters;
the trace is independent of all of them because every path that would
consult them is cut off by the `AttributeError`. -/
def handleInbound (_reSearch : String → String → Except Unit Bool)
    (hashFn : String → String) (_agentAnswer : String → String)
    (bindings : List ChannelBinding) (presets : List String)
    (sessions : List String) (_adapters : List String)
    (msg : InboundMessage) : List InboundEffect :=
  match findBinding bindings msg.channel_type msg.external_id with
  | none => []
  | some b =>
    if truthyStr b.trigger_pattern then []
    else if b.agent_id ∉ presets then []
    else
      let session_id := hashFn (msg.channel_type ++ ":" ++ msg.external_id)
      [InboundEffect.recordInbound b.id msg.content] ++
      (if session_id ∈ sessions then []
       else [InboundEffect.createSession session_id])

/-- `_start_feishu_adapter` (channel_manager.py lines 119-139) on the
adapter registry (the keys of `self._adapters`), in the regime where
`adapter.connect()` succeeds: if the key is already present the running
adapter is reused, otherwise a new adapter is registered under the key. -/
def start_feishu_adapter (reg : List String) (app_id : String) : List String :=
  let key := "feishu:" ++ app_id
  if key ∈ reg then reg else reg ++ [key]

/-- The count of `_maybe_stop_feishu_adapter` (lines 269-278): remaining
enabled feishu bindings whose config `app_id` equals the given one. -/
def countEnabledWithAppId (bindings : List ChannelBinding) (app_id : String) : Nat :=
  (bindings.filter (fun b =>
    b.channel_type == "feishu" && b.enabled && b.app_id == some app_id)).length

/-- `_maybe_stop_feishu_adapter` (channel_manager.py lines 259-281): a
no-op when the key is not registered; otherwise the adapter is stopped and
removed only when no enabled binding still references the app_id
(`remaining == 0`).  `self._adapters` is a dict, so removal drops the key
entirely. -/
def maybe_stop_feishu_adapter (bindings : List ChannelBinding)
    (reg : List String) (app_id : String) : List String :=
  let key := "feishu:" ++ app_id
  if key ∈ reg then
    if countEnabledWithAppId bindings app_id = 0 then
      reg.filter (fun k => k != key)
    else reg
  else reg

theorem string_append_cancel_left {s a b : String} (h : s ++ a = s ++ b) :
    a = b := by
  cases s with
  | mk sd =>
    cases a with
    | mk ad =>
      cases b with
      | mk bd =>
        have hdata : sd ++ ad = sd ++ bd := by
          have := congrArg String.data h
          simpa using this
        have : ad = bd := by
          exact List.append_cancel_left hdata
        simp [this]

-- ---------------------------------------------------------------------------
-- Channel manager lemmas
-- ---------------------------------------------------------------------------

/-- Witness input for C7/C10: an enabled telegram binding with a truthy
trigger pattern. -/
def demoPatternBinding : ChannelBinding :=
  { id := "b-pat", channel_type := "telegram", external_id := "chat-1",
    agent_id := "agent-1", trigger_pattern := some "^bot:",
    enabled := true, app_id := none, app_secret := none }

/-- An otherwise identical binding with no trigger pattern (control case:
the falsy pattern short-circuits past `msg.media`, so the inbound record
and session are committed before the later crash). -/
def demoNoPatternBinding : ChannelBinding :=
  { id := "b-nopat", channel_type := "telegram", external_id := "chat-1",
    agent_id := "agent-1", trigger_pattern := none,
    enabled := true, app_id := none, app_secret := none }

/-- A text message that does not match `^bot:`. -/
def demoHelloMsg : InboundMessage :=
  { channel_type := "telegram", external_id := "chat-1",
    sender_id := "42", sender_name := "User", content := "hello",
    message_type := "text", external_message_id := some "m1" }

/-- A text message that does match `^bot:`. -/
def demoBotMsg : InboundMessage :=
  { channel_type := "telegram", external_id := "chat-1",
    sender_id := "42", sender_name := "User", content := "bot: hi",
    message_type := "text", external_message_id := some "m2" }

/-- A concrete regex engine under which `^bot:` matches exactly
`demoBotMsg`'s text. -/
def demoBotEngine : String → String → Except Unit Bool :=
  fun p c => Except.ok (p == "^bot:" && c == "bot: hi")

/-- C7: evaluation of the code at the failing input.  For every inbound
message matched to an enabled binding whose trigger pattern is truthy, the
handler drops the message with no effect for EVERY regex engine — in
particular for one that raises `re.error` — because the gate's
`msg.media` read raises `AttributeError` before `re.search` can run, so
the claimed fail-open path is unreachable; and a media-carrying message is
not constructible at all (base.py's `InboundMessage` has no `media` field;
feishu.py's `media=` keyword raises `TypeError` on every message), so no
message is ever processed by virtue of carrying media. -/
theorem truthy_pattern_message_dropped
    (reSearch : String → String → Except Unit Bool)
    (hashFn : String → String) (agentAnswer : String → String)
    (bindings : List ChannelBinding) (presets : List String)
    (sessions : List String) (adapters : List String)
    (msg : InboundMessage) (b : ChannelBinding)
    (hb : findBinding bindings msg.channel_type msg.external_id = some b)
    (hpat : truthyStr b.trigger_pattern = true) :
    handleInbound reSearch hashFn agentAnswer bindings presets sessions
      adapters msg = [] := by
  unfold handleInbound
  rw [hb]
  simp [hpat]

/-- Witness for C7: under a regex engine that always raises `re.error`,
the non-matching concrete message on the truthy-pattern binding is dropped
with no effect instead of being processed fail-open. -/
theorem truthy_pattern_message_dropped_witness :
    truthyStr demoPatternBinding.trigger_pattern = true ∧
    handleInbound (fun _ _ => Except.error ()) (fun s => s) (fun _ => "reply")
      [demoPatternBinding] ["agent-1"] [] [] demoHelloMsg = [] := by
  refine ⟨by decide, ?_⟩
  exact truthy_pattern_message_dropped (fun _ _ => Except.error ())
    (fun s => s) (fun _ => "reply") [demoPatternBinding] ["agent-1"] [] []
    demoHelloMsg demoPatternBinding (by decide) (by decide)

/-- C10: evaluation of the code at the failing input.  On the
truthy-pattern binding, the non-matching text message produces no effect —
no inbound record, no session row, no agent run, no outbound message —
but so does the MATCHING message, under a regex engine that matches it:
the pattern check itself never executes (the `msg.media` read in its
condition raises `AttributeError` first), so the claimed
check-then-return-before-the-write mechanism is not what drops the
message.  The control case shows the handler is not trivially empty: with
a falsy pattern the inbound record and session row are committed before
the later `msg.media` crash cuts off the agent run. -/
theorem pattern_check_unreachable :
    handleInbound demoBotEngine (fun s => s) (fun _ => "reply")
      [demoPatternBinding] ["agent-1"] [] [] demoHelloMsg = [] ∧
    handleInbound demoBotEngine (fun s => s) (fun _ => "reply")
      [demoPatternBinding] ["agent-1"] [] [] demoBotMsg = [] ∧
    demoBotEngine "^bot:" demoBotMsg.content = Except.ok true ∧
    handleInbound demoBotEngine (fun s => s) (fun _ => "reply")
      [demoNoPatternBinding] ["agent-1"] [] [] demoHelloMsg =
      [InboundEffect.recordInbound "b-nopat" "hello",
       InboundEffect.createSession "telegram:chat-1"] := by
  exact ⟨by decide, by decide, rfl, by decide⟩

/-- C4: adapter identity invariant.  Two enabled feishu bindings with
distinct app_ids get distinct adapter keys and so two distinct adapter
instances, while bindings sharing the app_id share one key and starting
both registers exactly one adapter; `_maybe_stop_feishu_adapter` leaves the
registry untouched while any enabled binding still references the app_id,
and removes the adapter key only when no enabled binding references it —
so deleting one of two bindings sharing a credential never disconnects the
shared adapter. -/
theorem feishu_adapter_identity (b1 b2 : ChannelBinding) (a1 a2 : String)
    (bindings : List ChannelBinding) (reg : List String)
    (h1 : b1.channel_type = "feishu") (h2 : b2.channel_type = "feishu")
    (ha1 : b1.app_id = some a1) (ha2 : b2.app_id = some a2)
    (hn1 : a1 ≠ "") (hn2 : a2 ≠ "") :
    (a1 ≠ a2 → adapter_key_for_binding b1 ≠ adapter_key_for_binding b2) ∧
    (a1 = a2 → adapter_key_for_binding b1 = adapter_key_for_binding b2) ∧
    start_feishu_adapter (start_feishu_adapter [] a1) a1 = ["feishu:" ++ a1] ∧
    (a1 ≠ a2 → start_feishu_adapter (start_feishu_adapter [] a1) a2 =
      ["feishu:" ++ a1, "feishu:" ++ a2]) ∧
    (0 < countEnabledWithAppId bindings a1 →
      maybe_stop_feishu_adapter bindings reg a1 = reg) ∧
    (countEnabledWithAppId bindings a1 = 0 →
      ("feishu:" ++ a1) ∉ maybe_stop_feishu_adapter bindings reg a1) := by
  have hk1 : adapter_key_for_binding b1 = some ("feishu:" ++ a1) := by
    simp [adapter_key_for_binding, h1, ha1, hn1]
  have hk2 : adapter_key_for_binding b2 = some ("feishu:" ++ a2) := by
    simp [adapter_key_for_binding, h2, ha2, hn2]
  have hkeyne : a1 ≠ a2 → ("feishu:" ++ a1) ≠ ("feishu:" ++ a2) := by
    intro hne heq
    exact hne (string_append_cancel_left heq)
  refine ⟨?_, ?_, ?_, ?_, ?_, ?_⟩
  · intro hne heq
    rw [hk1, hk2] at heq
    exact hkeyne hne (Option.some_injective _ heq)
  · intro heq
    rw [hk1, hk2, heq]
  · simp [start_feishu_adapter]
  · intro hne
    simp [start_feishu_adapter, hkeyne hne, (hkeyne hne).symm]
  · intro hpos
    rw [maybe_stop_feishu_adapter]
    by_cases hmem : ("feishu:" ++ a1) ∈ reg
    · simp [hmem, Nat.pos_iff_ne_zero.mp hpos]
    · simp [hmem]
  · intro hzero
    rw [maybe_stop_feishu_adapter]
    by_cases hmem : ("feishu:" ++ a1) ∈ reg
    · simp [hmem, hzero]
    · simp [hmem]

/-- Witness for C4 at two concrete feishu bindings with distinct and then
shared credentials. -/
theorem feishu_adapter_identity_witness :
    adapter_key_for_binding
        { id := "b1", channel_type := "feishu", external_id := "oc_1",
          agent_id := "agent-1", trigger_pattern := none, enabled := true,
          app_id := some "cli_a", app_secret := some "s1" } ≠
      adapter_key_for_binding
        { id := "b2", channel_type := "feishu", external_id := "oc_2",
          agent_id := "agent-1", trigger_pattern := none, enabled := true,
          app_id := some "cli_b", app_secret := some "s2" } ∧
    maybe_stop_feishu_adapter
        [{ id := "b2", channel_type := "feishu", external_id := "oc_2",
           agent_id := "agent-1", trigger_pattern := none, enabled := true,
           app_id := some "cli_a", app_secret := some "s1" }]
        ["feishu:cli_a"] "cli_a" = ["feishu:cli_a"] := by
  have h := feishu_adapter_identity
    { id := "b1", channel_type := "feishu", external_id := "oc_1",
      agent_id := "agent-1", trigger_pattern := none, enabled := true,
      app_id := some "cli_a", app_secret := some "s1" }
    { id := "b2", channel_type := "feishu", external_id := "oc_2",
      agent_id := "agent-1", trigger_pattern := none, enabled := true,
      app_id := some "cli_b", app_secret := some "s2" }
    "cli_a" "cli_b"
    [{ id := "b2", channel_type := "feishu", external_id := "oc_2",
       agent_id := "agent-1", trigger_pattern := none, enabled := true,
       app_id := some "cli_a", app_secret := some "s1" }]
    ["feishu:cli_a"]
    rfl rfl rfl rfl (by decide) (by decide)
  exact ⟨h.1 (by decide), h.2.2.2.2.1 (by decide)⟩

/-- The enabled global (wildcard) feishu binding of the C3 scenario, as the
repository's own API tests create it (`external_id="*"`,
tests/test_api/test_channels.py, TestGlobalBindingsAPI). -/
def demoGlobalBinding : ChannelBinding :=
  { id := "b-global", channel_type := "feishu", external_id := "*",
    agent_id := "agent-1", trigger_pattern := none, enabled := true,
    app_id := some "cli_global_001", app_secret := some "s3cr3t" }

/-- An inbound feishu message from a chat that has no specific binding. -/
def demoInboundMsg : InboundMessage :=
  { channel_type := "feishu", external_id := "oc_chat_1",
    sender_id := "ou_user", sender_name := "User", content := "hello",
    message_type := "text", external_message_id := some "om_1" }

/-- C3: evaluation of the inbound routing at the failing input.  With a
single enabled wildcard binding (`external_id = "*"`) for channel type
feishu and an inbound message from chat `oc_chat_1`, the binding lookup of
`_handle_inbound` finds nothing — the lookup filters on exact
`external_id` equality and never falls back to the wildcard binding — and
the message is dropped with no effect, contradicting the claimed wildcard
fallback. -/
theorem inbound_no_wildcard_fallback :
    demoGlobalBinding.channel_type = "feishu" ∧
    demoGlobalBinding.external_id = "*" ∧
    demoGlobalBinding.enabled = true ∧
    demoInboundMsg.channel_type = "feishu" ∧
    findBinding [demoGlobalBinding] demoInboundMsg.channel_type
      demoInboundMsg.external_id = none ∧
    handleInbound (fun _ _ => Except.ok true) (fun s => s) (fun _ => "reply")
      [demoGlobalBinding] ["agent-1"] [] ["feishu:cli_global_001"]
      demoInboundMsg = [] := by
  refine ⟨rfl, rfl, rfl, rfl, by decide, ?_⟩
  rw [handleInbound]
  have hfb : findBinding [demoGlobalBinding] demoInboundMsg.channel_type
      demoInboundMsg.external_id = none := by decide
  rw [hfb]

-- ---------------------------------------------------------------------------
-- Task scheduler (app/services/scheduler.py, app/api/v1/scheduler.py)
-- ---------------------------------------------------------------------------

/-- A row of `scheduled_tasks` restricted to the fields the scheduler reads
and writes.  Times are seconds since the epoch. -/
structure ScheduledTask where
  id : String
  name : String
  agent_id : String
  prompt : String
  schedule_type : String
  schedule_value : String
  status : String
  next_run : Option Nat
  last_run : Option Nat
  run_count : Nat
  max_runs : Option Nat
deriving Repr, DecidableEq

/-- Digit-list accumulator for `parseNat`. -/
def digitsToNat : List Char → Nat → Option Nat
  | [], acc => some acc
  | c :: cs, acc =>
    if c.isDigit then digitsToNat cs (acc * 10 + (c.toNat - 48)) else none

/-- Python's `int()` on the nonnegative canonical decimal strings that
schedule validation admits (any other shape raises, modelled as `none`). -/
def parseNat (s : String) : Option Nat :=
  match s.data with
  | [] => none
  | l => digitsToNat l 0

/-- A freshly created `task_run_logs` row (id generation is not modelled). -/
structure TaskRunLog where
  task_id : String
  started_at : Nat
  status : String
deriving Repr, DecidableEq

section Scheduler

variable (cronNext : String → Nat → Nat)
variable (parseIso : String → Option Nat)
variable (cronValid : String → Bool)

/-- `_calculate_next_run` (scheduler.py lines 17-47), with exceptions made
explicit: `.error` is a raised exception (unparseable `int(...)` or
`datetime.fromisoformat(...)`), `.ok none` the `None` returns.  The
croniter library and the ISO datetime parser are external collaborators,
passed in as `cronNext` (next matching timestamp) and `parseIso`; `parseNat`
models `int()`. -/
def calculate_next_run (schedule_type schedule_value : String) (now : Nat) :
    Except String (Option Nat) :=
  if schedule_type = "cron" then Except.ok (some (cronNext schedule_value now))
  else if schedule_type = "interval" then
    match parseNat schedule_value with
    | some seconds => Except.ok (some (now + seconds))
    | none => Except.error "invalid interval"
  else if schedule_type = "once" then
    match parseIso schedule_value with
    | some run_at => Except.ok (if now < run_at then some run_at else none)
    | none => Except.error "invalid ISO datetime"
  else Except.ok none

/-- `validate_schedule` (scheduler.py lines 50-76): returns an error message
or `none` when the descriptor is valid.  A cron expression is checked by
the croniter constructor (`cronValid`); an interval must parse as an
integer of at least 10 seconds; a once schedule must parse as an ISO
datetime. -/
def validate_schedule (schedule_type schedule_value : String) : Option String :=
  if schedule_type ≠ "cron" ∧ schedule_type ≠ "interval" ∧ schedule_type ≠ "once" then
    some "Invalid schedule_type"
  else if schedule_type = "cron" then
    if cronValid schedule_value then none else some "Invalid cron expression"
  else if schedule_type = "interval" then
    match parseNat schedule_value with
    | some v => if v < 10 then some "Interval must be at least 10 seconds" else none
    | none => some "Interval must be an integer (seconds)"
  else
    match parseIso schedule_value with
    | some _ => none
    | none => some "Invalid ISO datetime"

/-- The due-task selection of `_poll_and_execute` (scheduler.py lines
133-139): all tasks with `status = 'active'` and `next_run <= now` (a NULL
`next_run` never satisfies the comparison). -/
def selectDue (tasks : List ScheduledTask) (now : Nat) : List ScheduledTask :=
  tasks.filter (fun t =>
    t.status == "active" &&
    (match t.next_run with
     | some nr => decide (nr ≤ now)
     | none => false))

/-- The per-task dispatch of `_poll_and_execute` (scheduler.py lines
141-165): recompute `next_run` from `now`, set `last_run`, increment
`run_count`, mark the task `completed` when `max_runs` is truthy and
reached or when the schedule type is `once`, and create a `running` run-log
row, all committed together.  A raised exception (`.error` from
`calculate_next_run`) is caught by the per-task handler before the commit,
so nothing is updated (`none`). -/
def poll_dispatch_task (t : ScheduledTask) (now : Nat) :
    Option (ScheduledTask × TaskRunLog) :=
  match calculate_next_run cronNext parseIso t.schedule_type t.schedule_value now with
  | .error _ => none
  | .ok next_run =>
    let rc := t.run_count + 1
    let maxed := match t.max_runs with
      | some m => decide (0 < m) && decide (m ≤ rc)
      | none => false
    let status := if maxed then "completed"
      else if t.schedule_type = "once" then "completed"
      else t.status
    some ({ t with next_run := next_run, last_run := some now,
                   run_count := rc, status := status },
          { task_id := t.id, started_at := now, status := "running" })

/-- `create_scheduled_task` (api/v1/scheduler.py lines 185-218) after the
agent and name checks: validate the schedule, compute the initial
`next_run` from now, and insert an `active` task with `run_count = 0`.
`none` models a rejected request. -/
def create_scheduled_task (id name agent_id prompt : String)
    (schedule_type schedule_value : String) (max_runs : Option Nat)
    (now : Nat) : Option ScheduledTask :=
  match validate_schedule parseIso cronValid schedule_type schedule_value with
  | some _ => none
  | none =>
    match calculate_next_run cronNext parseIso schedule_type schedule_value now with
    | .error _ => none
    | .ok next_run =>
      some { id := id, name := name, agent_id := agent_id, prompt := prompt,
             schedule_type := schedule_type, schedule_value := schedule_value,
             status := "active", next_run := next_run, last_run := none,
             run_count := 0, max_runs := max_runs }

end Scheduler

/-- `execute_task_async` (scheduler.py lines 323-358), the run-now path: a
single `running` run-log row is created, `last_run` is set, `run_count` is
incremented, and the pair is committed; no other task field is touched. -/
def execute_task_async (t : ScheduledTask) (now : Nat) :
    ScheduledTask × TaskRunLog :=
  ({ t with last_run := some now, run_count := t.run_count + 1 },
   { task_id := t.id, started_at := now, status := "running" })

-- ---------------------------------------------------------------------------
-- Scheduler lemmas
-- ---------------------------------------------------------------------------

theorem poll_dispatch_task_some (cronNext : String → Nat → Nat)
    (parseIso : String → Option Nat) (t : ScheduledTask) (now : Nat)
    (u : ScheduledTask) (lg : TaskRunLog)
    (hd : poll_dispatch_task cronNext parseIso t now = some (u, lg)) :
    ∃ nr, calculate_next_run cronNext parseIso t.schedule_type
        t.schedule_value now = Except.ok nr ∧
      u = { t with next_run := nr, last_run := some now,
                   run_count := t.run_count + 1,
                   status :=
                     if (match t.max_runs with
                         | some m => decide (0 < m) && decide (m ≤ t.run_count + 1)
                         | none => false) then "completed"
                     else if t.schedule_type = "once" then "completed"
                     else t.status } ∧
      lg = { task_id := t.id, started_at := now, status := "running" } := by
  cases hcal : calculate_next_run cronNext parseIso t.schedule_type
      t.schedule_value now with
  | error e =>
    rw [poll_dispatch_task, hcal] at hd
    cases hd
  | ok nr =>
    rw [poll_dispatch_task, hcal] at hd
    simp only [Option.some.injEq, Prod.mk.injEq] at hd
    exact ⟨nr, rfl, hd.1.symm, hd.2.symm⟩

/-- C5: a dispatched active task transitions to `completed` exactly when the
incremented `run_count` reaches a truthy `max_runs` or the schedule type is
`once`; in particular a task with `max_runs = 1` is completed by its first
poller dispatch, and a completed task is never again selected by the
due-task query (which takes only `status = 'active'` tasks with
`next_run <= now`). -/
theorem task_completion_state_machine (cronNext : String → Nat → Nat)
    (parseIso : String → Option Nat) (t : ScheduledTask) (now : Nat)
    (u : ScheduledTask) (lg : TaskRunLog)
    (hact : t.status = "active")
    (hd : poll_dispatch_task cronNext parseIso t now = some (u, lg)) :
    (u.status = "completed" ↔
      ((∃ m, t.max_runs = some m ∧ 0 < m ∧ m ≤ t.run_count + 1) ∨
       t.schedule_type = "once")) ∧
    (t.max_runs = some 1 → u.status = "completed") ∧
    (∀ (tasks : List ScheduledTask) (now2 : Nat),
      u.status = "completed" → u ∉ selectDue tasks now2) := by
  obtain ⟨nr, hcal, hu, hl⟩ := poll_dispatch_task_some cronNext parseIso t now u lg hd
  have hB : (match t.max_runs with
      | some m => decide (0 < m) && decide (m ≤ t.run_count + 1)
      | none => false) = true ↔
      (∃ m, t.max_runs = some m ∧ 0 < m ∧ m ≤ t.run_count + 1) := by
    cases t.max_runs with
    | none => simp
    | some m => simp
  have hstat : u.status =
      if (match t.max_runs with
          | some m => decide (0 < m) && decide (m ≤ t.run_count + 1)
          | none => false) then "completed"
      else if t.schedule_type = "once" then "completed"
      else t.status := by
    rw [hu]
  refine ⟨?_, ?_, ?_⟩
  · constructor
    · intro hcomp
      rw [hstat] at hcomp
      by_cases hb : (match t.max_runs with
          | some m => decide (0 < m) && decide (m ≤ t.run_count + 1)
          | none => false) = true
      · exact Or.inl (hB.mp hb)
      · rw [if_neg (by simpa using hb)] at hcomp
        by_cases honce : t.schedule_type = "once"
        · exact Or.inr honce
        · rw [if_neg honce, hact] at hcomp
          exact absurd hcomp (by decide)
    · intro h
      rw [hstat]
      rcases h with hmax | honce
      · rw [if_pos (hB.mpr hmax)]
      · by_cases hb : (match t.max_runs with
            | some m => decide (0 < m) && decide (m ≤ t.run_count + 1)
            | none => false) = true
        · rw [if_pos hb]
        · rw [if_neg (by simpa using hb), if_pos honce]
  · intro hone
    rw [hstat, hone]
    simp
  · intro tasks now2 hcomp hmem
    rw [selectDue, List.mem_filter, Bool.and_eq_true] at hmem
    have hb := hmem.2.1
    rw [beq_iff_eq, hcomp] at hb
    exact absurd hb (by decide)

/-- Witness input for C5: an active interval task with `max_runs = 1`. -/
def demoMax1Task : ScheduledTask :=
  { id := "t1", name := "daily", agent_id := "a1", prompt := "do it",
    schedule_type := "interval", schedule_value := "60", status := "active",
    next_run := some 50, last_run := none, run_count := 0,
    max_runs := some 1 }

/-- The task state produced by dispatching `demoMax1Task` at time 100. -/
def demoMax1TaskAfter : ScheduledTask :=
  { id := "t1", name := "daily", agent_id := "a1", prompt := "do it",
    schedule_type := "interval", schedule_value := "60", status := "completed",
    next_run := some 160, last_run := some 100, run_count := 1,
    max_runs := some 1 }

/-- Witness for C5: dispatching the concrete `max_runs = 1` task completes
it, and the completed task is excluded from due-task selection. -/
theorem task_completion_state_machine_witness :
    poll_dispatch_task (fun _ n => n) (fun _ => none) demoMax1Task 100 =
      some (demoMax1TaskAfter,
            { task_id := "t1", started_at := 100, status := "running" }) ∧
    demoMax1TaskAfter.status = "completed" ∧
    demoMax1TaskAfter ∉ selectDue [demoMax1TaskAfter] 100000 := by
  have hd : poll_dispatch_task (fun _ n => n) (fun _ => none) demoMax1Task 100 =
      some (demoMax1TaskAfter,
            { task_id := "t1", started_at := 100, status := "running" }) := by
    decide
  have h := task_completion_state_machine (fun _ n => n) (fun _ => none)
    demoMax1Task 100 demoMax1TaskAfter
    { task_id := "t1", started_at := 100, status := "running" } rfl hd
  exact ⟨hd, h.2.1 rfl, h.2.2 [demoMax1TaskAfter] 100000 (h.2.1 rfl)⟩

/-- C6: for a task created with `schedule_type = "interval"` and
`schedule_value = N` seconds, `next_run` at creation equals the creation
time plus `N`, and a poller dispatch at time `t1` recomputes `next_run`
to `t1 + N` and increments `run_count` by exactly one. -/
theorem interval_schedule_next_run (cronNext : String → Nat → Nat)
    (parseIso : String → Option Nat) (cronValid : String → Bool)
    (id name agent_id prompt sv : String) (seconds : Nat)
    (max_runs : Option Nat) (now t1 : Nat) (task : ScheduledTask)
    (hsv : parseNat sv = some seconds)
    (hc : create_scheduled_task cronNext parseIso cronValid id name agent_id
            prompt "interval" sv max_runs now = some task) :
    task.next_run = some (now + seconds) ∧
    task.run_count = 0 ∧
    poll_dispatch_task cronNext parseIso task t1 =
      some ({ task with next_run := some (t1 + seconds),
                        last_run := some t1,
                        run_count := task.run_count + 1,
                        status := if (match task.max_runs with
                            | some m => decide (0 < m) && decide (m ≤ task.run_count + 1)
                            | none => false) then "completed" else task.status },
            { task_id := task.id, started_at := t1, status := "running" }) ∧
    ({ task with next_run := some (t1 + seconds),
                 last_run := some t1,
                 run_count := task.run_count + 1,
                 status := if (match task.max_runs with
                     | some m => decide (0 < m) && decide (m ≤ task.run_count + 1)
                     | none => false) then "completed" else task.status } :
      ScheduledTask).run_count = task.run_count + 1 := by
  rw [create_scheduled_task, validate_schedule, calculate_next_run] at hc
  simp only [hsv] at hc
  by_cases h10 : seconds < 10
  · simp [h10] at hc
  · simp only [h10] at hc
    simp at hc
    have htask : task =
        { id := id, name := name, agent_id := agent_id, prompt := prompt,
          schedule_type := "interval", schedule_value := sv,
          status := "active", next_run := some (now + seconds),
          last_run := none, run_count := 0, max_runs := max_runs } := hc.symm
    subst htask
    refine ⟨rfl, rfl, ?_, rfl⟩
    rw [poll_dispatch_task, calculate_next_run]
    simp only [hsv]
    simp

/-- C8: run-now (`execute_task_async`) creates exactly one run-log row with
status `running` for the task, sets `last_run` and increments `run_count`
by one, and leaves every other task field unchanged — in particular
`next_run` and `status` are untouched, so run-now never transitions the
task to `completed` even when `run_count` reaches `max_runs` (the function
never reads `max_runs`). -/
theorem run_now_frame (t : ScheduledTask) (now : Nat) :
    (execute_task_async t now).2.status = "running" ∧
    (execute_task_async t now).2.task_id = t.id ∧
    (execute_task_async t now).2.started_at = now ∧
    (execute_task_async t now).1.last_run = some now ∧
    (execute_task_async t now).1.run_count = t.run_count + 1 ∧
    (execute_task_async t now).1.next_run = t.next_run ∧
    (execute_task_async t now).1.status = t.status ∧
    (execute_task_async t now).1.id = t.id ∧
    (execute_task_async t now).1.name = t.name ∧
    (execute_task_async t now).1.agent_id = t.agent_id ∧
    (execute_task_async t now).1.prompt = t.prompt ∧
    (execute_task_async t now).1.schedule_type = t.schedule_type ∧
    (execute_task_async t now).1.schedule_value = t.schedule_value ∧
    (execute_task_async t now).1.max_runs = t.max_runs :=
  ⟨rfl, rfl, rfl, rfl, rfl, rfl, rfl, rfl, rfl, rfl, rfl, rfl, rfl, rfl⟩

/-- Witness input for C6: a task created with a 3600-second interval at
time 1000. -/
def demoIntervalTask : ScheduledTask :=
  { id := "t2", name := "hourly", agent_id := "a1", prompt := "p",
    schedule_type := "interval", schedule_value := "3600", status := "active",
    next_run := some 4600, last_run := none, run_count := 0, max_runs := none }

/-- Witness for C6: creation sets `next_run = 1000 + 3600`, and a dispatch
at time 5000 advances it to `5000 + 3600` with `run_count` incremented. -/
theorem interval_schedule_next_run_witness :
    create_scheduled_task (fun _ n => n) (fun _ => none) (fun _ => true)
      "t2" "hourly" "a1" "p" "interval" "3600" none 1000 =
      some demoIntervalTask ∧
    demoIntervalTask.next_run = some (1000 + 3600) ∧
    poll_dispatch_task (fun _ n => n) (fun _ => none) demoIntervalTask 5000 =
      some ({ demoIntervalTask with next_run := some (5000 + 3600),
                                    last_run := some 5000, run_count := 1 },
            { task_id := "t2", started_at := 5000, status := "running" }) := by
  have hc : create_scheduled_task (fun _ n => n) (fun _ => none) (fun _ => true)
      "t2" "hourly" "a1" "p" "interval" "3600" none 1000 =
      some demoIntervalTask := by decide
  have h := interval_schedule_next_run (fun _ n => n) (fun _ => none)
    (fun _ => true) "t2" "hourly" "a1" "p" "3600" 3600 none 1000 5000
    demoIntervalTask (by decide) hc
  exact ⟨hc, h.1, by decide⟩
